import Mathlib

/-!
# A shallow embedding of the pawshell session engine

This file embeds the session engine of the `pawshell` conversational pet
application (source: `src/main.rs`, `src/ui.rs`, `src/pet.rs`, `src/llm.rs`,
`src/ollama.rs`) and proves properties of its update and input-handling
operations.

Modelling conventions:
* Rust `f32` mood arithmetic is modelled with exact rationals (`Rat`).
  All mood operations in the source are additions/subtractions composed with
  `min`/`max` clamps, so the clamp structure is preserved exactly.
* `chrono::DateTime<Utc>` timestamps are modelled as whole seconds since an
  epoch (`Int`); `chrono::Duration::num_hours` truncates toward zero, which is
  `Int.tdiv` by 3600 on the seconds difference.
* Rust `String`/`&str` values are Lean `String`s; the string operations the
  engine uses (`trim`, `starts_with(char)`, `strip_prefix(char)`,
  `to_lowercase`, `contains`, `split`, `split_whitespace`) are defined below
  over the underlying character list, modelling Unicode whitespace/lowercasing
  at ASCII fidelity (no input the engine treats specially is non-ASCII).
* The two external effects reaching `App::handle_input` are passed as
  explicit parameters: `llmResponse : Option String` is the result of the
  single `LLMBackend::generate_response` round trip (`some` = `Ok`,
  `none` = `Err(_)`; the error payload is discarded by the source match), and
  `saveOk : Bool` tells whether `confy::store` in `App::save_state` succeeds.
  The result records which of these effects were attempted.
-/

namespace Pawshell

/-! ## String operations (models of the Rust `str` methods used) -/

/-- Rust `char::is_whitespace`, at ASCII fidelity. -/
def isWs (c : Char) : Bool := c.isWhitespace

/-- Rust `str::trim` on the character list: strip leading and trailing
whitespace. -/
def trimChars (l : List Char) : List Char := (l.dropWhile isWs).rdropWhile isWs

/-- Rust `str::trim`. -/
def rustTrim (s : String) : String := ⟨trimChars s.data⟩

/-- Rust `str::starts_with(c : char)` is a check of the first character. -/
def headChar (s : String) : Option Char := s.data.head?

/-- Rust `str::strip_prefix(c : char)` on a string already known to start
with `c`: drop the first character. -/
def stripFirstChar (s : String) : String := ⟨s.data.drop 1⟩

/-- Whether `pat` occurs at the start of `l` (Rust pattern matching at a
position). -/
def isPre : List Char → List Char → Bool
  | [], _ => true
  | _ :: _, [] => false
  | c :: cs, d :: ds => (c == d) && isPre cs ds

/-- Whether `pat` occurs somewhere in `l`. -/
def hasSub (pat : List Char) : List Char → Bool
  | [] => isPre pat []
  | c :: cs => isPre pat (c :: cs) || hasSub pat cs

/-- Rust `str::contains(&str)`: substring occurrence. -/
def containsSub (s pat : String) : Bool := hasSub pat.data s.data

/-- Rust `str::to_lowercase`, at ASCII fidelity. -/
def rustToLower (s : String) : String := ⟨s.data.map Char.toLower⟩

/-- Rust `str::starts_with(&str)`. -/
def startsWithStr (s pre : String) : Bool := isPre pre.data s.data

/-- Splitter for Rust `str::split_whitespace` (before dropping empties). -/
def splitWsAux : List Char → List Char → List String
  | [], cur => [⟨cur.reverse⟩]
  | c :: cs, cur => if isWs c then ⟨cur.reverse⟩ :: splitWsAux cs [] else splitWsAux cs (c :: cur)

/-- Rust `str::split_whitespace` yields only the nonempty tokens. -/
def splitWs (s : String) : List String := (splitWsAux s.data []).filter (· ≠ "")

/-- Splitter for Rust `str::split(sep : char)` (keeps empty pieces, always
yields at least one piece). -/
def splitOnCharAux (sep : Char) : List Char → List Char → List (List Char)
  | [], cur => [cur.reverse]
  | c :: cs, cur => if c == sep then cur.reverse :: splitOnCharAux sep cs [] else splitOnCharAux sep cs (c :: cur)

/-- Rust `str::split(sep : char)`. -/
def splitOnChar (sep : Char) (s : String) : List String :=
  (splitOnCharAux sep s.data []).map (fun l => ⟨l⟩)

/-! ## Data model -/

/-- `PetState` (`src/pet.rs`): the persisted pet state. -/
structure PetState where
  name : String
  mood : Rat
  last_interaction : Int
  chat_history : List (String × String)
  deriving Repr, DecidableEq

/-- `AppUI` (`src/ui.rs`): pending input line, the bounded display message
buffer, and the scroll cursor (`scroll_state` merely mirrors
`scroll_offset`, so only the offset is modelled). -/
structure AppUI where
  input : String
  messages : List String
  scroll_offset : Nat
  deriving Repr, DecidableEq

/-- `App` (`src/main.rs`): the session context. `conversation_history` is the
`OllamaBackend` rolling context fed by `add_to_history`
(`src/ollama.rs`). -/
structure App where
  ui : AppUI
  state : PetState
  recent_commands : List String
  conversation_history : List (String × String)
  deriving Repr, DecidableEq

/-- How one `App::handle_input` turn ends: `Ok(())`, `std::process::exit(0)`,
or an `Err` propagated by `?` (only `App::save_state` produces one). -/
inductive TurnOutcome where
  | ok
  | exited
  | failed
  deriving Repr, DecidableEq

/-- The observable result of one `App::handle_input` turn: the new in-memory
`App`, how the call returned, and which external effects were attempted. -/
structure TurnResult where
  app : App
  outcome : TurnOutcome
  backendCalled : Bool
  saveAttempted : Bool
  deriving Repr, DecidableEq

/-! ## ScrollbackBuffer (`src/ui.rs`) -/

/-- `MAX_MESSAGES` in `AppUI::add_message`. -/
def MAX_MESSAGES : Nat := 100

/-- Rust `msg.split('\n').count()`: one more than the number of `'\n'`s. -/
def countLines (l : List Char) : Nat := 1 + l.countP (· == '\n')

/-- Per-message display line count used by `AppUI::scroll_to_bottom`:
pet responses get one extra blank line. -/
def msgLineCount (msg : String) : Nat :=
  let n := countLines msg.data
  if startsWithStr msg "You: " then n else n + 1

/-- Total display line count over the buffer. -/
def totalLines (messages : List String) : Nat := (messages.map msgLineCount).sum

/-- `AppUI::scroll_to_bottom`. -/
def scroll_to_bottom (ui : AppUI) : AppUI :=
  { ui with scroll_offset := totalLines ui.messages }

/-- `AppUI::add_message`: evict the oldest entry when at capacity, append,
then scroll to the bottom. -/
def add_message (ui : AppUI) (message : String) : AppUI :=
  let msgs := if ui.messages.length ≥ MAX_MESSAGES then ui.messages.drop 1 else ui.messages
  scroll_to_bottom { ui with messages := msgs ++ [message] }

/-! ## Mood arithmetic (`src/main.rs`) -/

/-- The boost pattern `(mood + d).min(1.0)` used by `App::handle_input`. -/
def boostMood (mood d : Rat) : Rat := min (mood + d) 1

/-- The decay arithmetic of `App::update`:
`(mood - hours * 0.1).max(0.1).min(1.0)`. -/
def decayMood (mood : Rat) (hours : Int) : Rat :=
  min (max (mood - (hours : Rat) * (1/10)) (1/10)) 1

/-- `(now - last_interaction).num_hours()`: whole hours, truncated toward
zero, on timestamps in seconds. -/
def hoursSince (last now : Int) : Int := (now - last).tdiv 3600

/-- `App::update`: the per-tick mood decay. -/
def update (a : App) (now : Int) : App :=
  { a with state := { a.state with
      mood := decayMood a.state.mood (hoursSince a.state.last_interaction now) } }

/-! ## Fallback responder and backend context -/

def treatReply : String := "*purrs happily* Thank you for the treat! 😊"
def playReply : String := "*bounces around excitedly* I love to play! 🐱"
def contentReply : String := "*purrs contentedly* 😊"
def curiousReply : String := "*looks at you curiously* Meow?"
def distantReply : String := "*seems a bit distant* ..."

/-- The fallback response arms of `App::handle_input` (the `Err(_)` match
arm): keyword checks on the lowercased input, then mood bands. Returns the
reply and the mood after the arm's own boost (the bands leave mood
unchanged). `mood` is the value of `self.state.mood` at the point the arm
runs, i.e. after the turn's `+0.1` exchange boost. -/
def fallbackRespond (user_message : String) (mood : Rat) : String × Rat :=
  if containsSub (rustToLower user_message) "treat" then
    (treatReply, boostMood mood (2/10))
  else if containsSub (rustToLower user_message) "play" then
    (playReply, boostMood mood (15/100))
  else if mood > 8/10 then (contentReply, mood)
  else if mood > 4/10 then (curiousReply, mood)
  else (distantReply, mood)

/-- `OllamaBackend::add_to_history` (`src/ollama.rs`): append an exchange to
the backend context, evicting the oldest once the length exceeds 5. -/
def add_to_history (hist : List (String × String)) (user_message assistant_response : String) :
    List (String × String) :=
  let h := hist ++ [(user_message, assistant_response)]
  if h.length > 5 then h.drop 1 else h

/-! ## Input handling (`App::handle_input`, `src/main.rs`) -/

/-- The `$`-tracking block of `App::handle_input`: an input starting with
`'$'` has the marker stripped, is trimmed and appended to
`recent_commands`; one oldest entry is removed when the length exceeds 5. -/
def captureDollar (recent : List String) (user_message : String) : List String :=
  if headChar user_message = some '$' then
    let l := recent ++ [rustTrim (stripFirstChar user_message)]
    if l.length > 5 then l.drop 1 else l
  else recent

def purgeNotice : String := "Chat history has been purged from disk."

def clearNotice : String := "Chat window cleared."

def goodbyeText : String := ": Goodbye! Take care! 👋"

def helpText : String := "Available Commands:\n/stats - Display current pet statistics\n/clear - Clear chat window\n/purge - Remove all chat history\n/help  - Show this help message\n/exit  - Exit the application"

/-- `mood * 100` rendered with zero decimals for `/stats`. The exact float
formatting is abstracted as rounding to the nearest integer; no other part
of the engine reads this text. -/
def moodPercent (mood : Rat) : Int := round (mood * 100)

/-- The `/stats` display text. The `{:.0}` float rendering and the timestamp
format string are abstracted (`moodPercent`, `toString`); no other part of
the engine reads this text. -/
def statsText (s : PetState) : String :=
  "Current Stats:\nMood: " ++ toString (moodPercent s.mood) ++ "%\nLast Interaction: "
    ++ toString s.last_interaction ++ "\nChat History: "
    ++ toString s.chat_history.length ++ " messages"

/-- The chat path of `App::handle_input` (everything after the command
dispatch): stamp `last_interaction`, apply the `+0.1` exchange boost, make
the single backend attempt (falling back on failure), display and record the
exchange, clear the input, and save. -/
def chatTurn (a : App) (user_message : String) (now : Int) (llmResponse : Option String)
    (saveOk : Bool) : TurnResult :=
  let a1 := { a with state := { a.state with
      last_interaction := now, mood := boostMood a.state.mood (1/10) } }
  let p : App × String :=
    match llmResponse with
    | some r => ({ a1 with conversation_history := add_to_history a1.conversation_history user_message r }, r)
    | none =>
      let fr := fallbackRespond user_message a1.state.mood
      ({ a1 with state := { a1.state with mood := fr.2 } }, fr.1)
  let a2 := p.1
  let a3 := { a2 with ui := add_message a2.ui (a2.state.name ++ ": " ++ p.2) }
  let a4 := { a3 with state := { a3.state with
      chat_history := a3.state.chat_history ++ [(user_message, p.2)] } }
  let a5 := { a4 with ui := { a4.ui with input := "" } }
  { app := a5, outcome := if saveOk then .ok else .failed,
    backendCalled := true, saveAttempted := true }

/-- `App::handle_input`: one turn of the session loop's Enter handler. -/
def handle_input (a : App) (now : Int) (llmResponse : Option String) (saveOk : Bool) :
    TurnResult :=
  if a.ui.input = "" then
    { app := a, outcome := .ok, backendCalled := false, saveAttempted := false }
  else
    if rustTrim a.ui.input = "/exit" then
      let a1 := { a with ui := add_message a.ui (a.state.name ++ goodbyeText) }
      { app := a1, outcome := if saveOk then .exited else .failed,
        backendCalled := false, saveAttempted := true }
    else
      let a1 := { a with ui := add_message a.ui ("You: " ++ a.ui.input) }
      let a2 := { a1 with recent_commands := captureDollar a1.recent_commands a.ui.input }
      if headChar a.ui.input = some '/' then
        if rustTrim a.ui.input = "/stats" then
          let a3 := { a2 with ui := add_message a2.ui (a2.state.name ++ ": " ++ statsText a2.state) }
          { app := { a3 with ui := { a3.ui with input := "" } }, outcome := .ok,
            backendCalled := false, saveAttempted := false }
        else if rustTrim a.ui.input = "/clear" then
          let a3 := { a2 with ui := add_message { a2.ui with messages := [] } clearNotice }
          { app := { a3 with ui := { a3.ui with input := "" } }, outcome := .ok,
            backendCalled := false, saveAttempted := false }
        else if rustTrim a.ui.input = "/purge" then
          let a3 := { a2 with state := { a2.state with chat_history := [] } }
          let a4 := { a3 with ui := add_message { a3.ui with messages := [] } purgeNotice }
          if saveOk then
            { app := { a4 with ui := { a4.ui with input := "" } }, outcome := .ok,
              backendCalled := false, saveAttempted := true }
          else
            { app := a4, outcome := .failed, backendCalled := false, saveAttempted := true }
        else if rustTrim a.ui.input = "/help" then
          let a3 := { a2 with ui := add_message a2.ui (a2.state.name ++ ": " ++ helpText) }
          { app := { a3 with ui := { a3.ui with input := "" } }, outcome := .ok,
            backendCalled := false, saveAttempted := false }
        else if rustTrim a.ui.input = "/exit" then
          let a3 := { a2 with ui := add_message a2.ui (a2.state.name ++ goodbyeText) }
          { app := a3, outcome := if saveOk then .exited else .failed,
            backendCalled := false, saveAttempted := true }
        else chatTurn a2 a.ui.input now llmResponse saveOk
      else chatTurn a2 a.ui.input now llmResponse saveOk

/-- How `main`'s event loop reacts to a turn's outcome: `app.handle_input().await?`
propagates an error out of the loop (terminating the process), and
`std::process::exit(0)` never returns, so only `Ok` keeps the loop running. -/
def loopContinues : TurnOutcome → Bool
  | .ok => true
  | .exited => false
  | .failed => false

/-! ## Shell history loading (`src/main.rs`) -/

/-- `clean_history_line`: strip the zsh `: 1234567890:0;cmd` form, else take
the trailing whitespace-delimited token. -/
def clean_history_line (line : String) : String :=
  if headChar line = some ':' then
    rustTrim ((splitOnChar ';' line).getLastD "")
  else
    match (splitWs line).getLast? with
    | some cmd => rustTrim cmd
    | none => rustTrim line

/-- `App::load_shell_history`, over the lines of the first available history
file: each cleaned nonempty line is appended to `recent_commands`, evicting
the oldest once the length exceeds `limit` (`config.command_history_limit`,
default 50). -/
def load_shell_history (limit : Nat) (lines : List String) (recent : List String) :
    List String :=
  lines.foldl (fun acc line =>
    let cmd := clean_history_line line
    if cmd = "" then acc
    else
      let acc1 := acc ++ [cmd]
      if acc1.length > limit then acc1.drop 1 else acc1) recent

/-! ## Session operation sequences -/

/-- One mood-relevant operation of the running session: a decay tick
(`App::update`) or one input turn (`App::handle_input`, which applies the
`+0.1` exchange boost and possibly a fallback `+0.2`/`+0.15` boost). -/
inductive SessionOp where
  | tick (now : Int)
  | turn (now : Int) (llmResponse : Option String) (saveOk : Bool)

/-- Apply one session operation to the app. -/
def applySessionOp (a : App) : SessionOp → App
  | .tick now => update a now
  | .turn now llmResponse saveOk => (handle_input a now llmResponse saveOk).app

/-! ## Sample states used by concrete runs -/

def sampleUI : AppUI := { input := "", messages := [], scroll_offset := 0 }

def sampleApp : App :=
  { ui := sampleUI,
    state := { name := "Whiskers", mood := 1, last_interaction := 0, chat_history := [] },
    recent_commands := [], conversation_history := [] }

/-- The C2 scenario state: mood `0.5`, pending input `"I brought you a treat"`. -/
def treatApp : App :=
  { sampleApp with
    ui := { sampleUI with input := "I brought you a treat" },
    state := { sampleApp.state with mood := 1/2 } }

/-- A state with a plain chat input pending, used for the save-failure runs. -/
def helloApp : App := { sampleApp with ui := { sampleUI with input := "hello" } }

/-- A state with the unrecognized slash command `"/bogus"` pending. -/
def bogusApp : App := { sampleApp with ui := { sampleUI with input := "/bogus" } }

/-- A state with `"/purge"` pending and nonempty history. -/
def purgeApp : App :=
  { sampleApp with
    ui := { sampleUI with input := "/purge" },
    state := { name := "Whiskers", mood := 1/2, last_interaction := 5,
               chat_history := [("hi", "meow")] } }

/-- Six shell-history lines, as `load_shell_history` would read them from the
first available history file. -/
def historyLines : List String :=
  ["alpha", "bravo", "charlie", "delta", "echo", "foxtrot"]

/-- A state whose `recent_commands` was populated by `load_shell_history`
with the default `command_history_limit = 50`, with a `"$ls"` input
pending. -/
def preloadedApp : App :=
  { sampleApp with
    recent_commands := load_shell_history 50 historyLines [],
    ui := { sampleUI with input := "$ls" } }

/-- A display buffer at capacity (100 messages). -/
def fullUI : AppUI :=
  { input := "", messages := List.replicate 100 "m", scroll_offset := 0 }

/-! ## Helper lemmas -/

theorem boostMood_bounds (m d : Rat) (h1 : 1/10 ≤ m) (hd : 0 ≤ d) :
    1/10 ≤ boostMood m d ∧ boostMood m d ≤ 1 := by
  unfold boostMood
  exact ⟨le_min (by linarith) (by norm_num), min_le_right _ _⟩

theorem decayMood_bounds (m : Rat) (h : Int) :
    1/10 ≤ decayMood m h ∧ decayMood m h ≤ 1 := by
  unfold decayMood
  exact ⟨le_min (le_max_right _ _) (by norm_num), min_le_right _ _⟩

theorem fallbackRespond_mood_bounds (u : String) (m : Rat) (h1 : 1/10 ≤ m) (h2 : m ≤ 1) :
    1/10 ≤ (fallbackRespond u m).2 ∧ (fallbackRespond u m).2 ≤ 1 := by
  unfold fallbackRespond
  split_ifs <;> dsimp only <;>
    first
      | exact ⟨h1, h2⟩
      | exact boostMood_bounds m _ h1 (by norm_num)

theorem chatTurn_mood_bounds (a : App) (u : String) (now : Int) (llm : Option String)
    (s : Bool) (h1 : 1/10 ≤ a.state.mood) (_h2 : a.state.mood ≤ 1) :
    1/10 ≤ (chatTurn a u now llm s).app.state.mood ∧
      (chatTurn a u now llm s).app.state.mood ≤ 1 := by
  have hb := boostMood_bounds a.state.mood (1/10) h1 (by norm_num)
  unfold chatTurn
  cases llm with
  | none => exact fallbackRespond_mood_bounds u _ hb.1 hb.2
  | some r => exact hb

theorem handle_input_mood_bounds (a : App) (now : Int) (llm : Option String) (s : Bool)
    (h1 : 1/10 ≤ a.state.mood) (h2 : a.state.mood ≤ 1) :
    1/10 ≤ (handle_input a now llm s).app.state.mood ∧
      (handle_input a now llm s).app.state.mood ≤ 1 := by
  unfold handle_input
  split_ifs <;> dsimp only <;>
    first
      | exact ⟨h1, h2⟩
      | exact chatTurn_mood_bounds _ _ _ _ _ h1 h2

theorem chatTurn_recent (a : App) (u : String) (now : Int) (llm : Option String) (s : Bool) :
    (chatTurn a u now llm s).app.recent_commands = a.recent_commands := by
  unfold chatTurn
  cases llm <;> rfl

theorem chatTurn_outcome (a : App) (u : String) (now : Int) (llm : Option String) (s : Bool) :
    (chatTurn a u now llm s).outcome = if s then .ok else .failed := by
  unfold chatTurn
  cases llm <;> rfl

theorem chatTurn_backendCalled (a : App) (u : String) (now : Int) (llm : Option String)
    (s : Bool) : (chatTurn a u now llm s).backendCalled = true := by
  unfold chatTurn
  cases llm <;> rfl

theorem chatTurn_saveAttempted (a : App) (u : String) (now : Int) (llm : Option String)
    (s : Bool) : (chatTurn a u now llm s).saveAttempted = true := by
  unfold chatTurn
  cases llm <;> rfl

theorem chatTurn_last_interaction (a : App) (u : String) (now : Int) (llm : Option String)
    (s : Bool) : (chatTurn a u now llm s).app.state.last_interaction = now := by
  unfold chatTurn
  cases llm <;> rfl

theorem chatTurn_chat_history (a : App) (u : String) (now : Int) (llm : Option String)
    (s : Bool) :
    ∃ r, (chatTurn a u now llm s).app.state.chat_history
        = a.state.chat_history ++ [(u, r)] := by
  unfold chatTurn
  cases llm with
  | none => exact ⟨(fallbackRespond u (boostMood a.state.mood (1/10))).1, rfl⟩
  | some r => exact ⟨r, rfl⟩

theorem captureDollar_not_dollar (recent : List String) (u : String)
    (h : ¬ headChar u = some '$') : captureDollar recent u = recent := by
  unfold captureDollar
  rw [if_neg h]

/-- A string that starts with `'$'` never trims to `"/exit"`: trimming
strips only whitespace, so the leading `'$'` survives. -/
theorem trim_of_dollar_ne_exit (s : String) (h : headChar s = some '$') :
    rustTrim s ≠ "/exit" := by
  obtain ⟨t, hd⟩ : ∃ t, s.data = '$' :: t := by
    cases hs : s.data with
    | nil => rw [headChar, hs] at h; exact absurd h (by decide)
    | cons c t =>
      rw [headChar, hs] at h
      simp only [List.head?_cons, Option.some.injEq] at h
      exact ⟨t, by rw [h]⟩
  intro he
  have hdata : trimChars s.data = "/exit".data := congrArg String.data he
  rw [hd] at hdata
  have hdw : List.dropWhile isWs ('$' :: t) = '$' :: t := by
    rw [List.dropWhile_cons]
    simp [isWs]
  rw [trimChars, hdw] at hdata
  have hp := List.rdropWhile_prefix isWs ('$' :: t)
  rw [hdata] at hp
  obtain ⟨u, hu⟩ := hp
  have hfe : "/exit".data = '/' :: "exit".data := by decide
  rw [hfe, List.cons_append] at hu
  exact absurd (List.cons.injEq .. ▸ hu).1 (by decide)

/-- For an input starting with `'$'`, `handle_input` routes it to the chat
path, and the resulting `recent_commands` is exactly the `$`-capture applied
to the same shared list. -/
theorem handle_input_dollar_recent (a : App) (now : Int) (llm : Option String) (saveOk : Bool)
    (h : headChar a.ui.input = some '$') :
    (handle_input a now llm saveOk).app.recent_commands
      = captureDollar a.recent_commands a.ui.input := by
  have hne : ¬ (a.ui.input = "") := by
    intro he
    rw [he] at h
    exact absurd h (by decide)
  have hex : ¬ (rustTrim a.ui.input = "/exit") := trim_of_dollar_ne_exit _ h
  have hsl : ¬ (headChar a.ui.input = some '/') := by
    rw [h]
    decide
  unfold handle_input
  rw [if_neg hne, if_neg hex]
  dsimp only
  rw [if_neg hsl, chatTurn_recent]

/-- The full effect of a `/purge` turn on the observable state. -/
theorem handle_input_purge (a : App) (now : Int) (llm : Option String) (saveOk : Bool)
    (h : a.ui.input = "/purge") :
    (handle_input a now llm saveOk).app.state.chat_history = [] ∧
    (handle_input a now llm saveOk).app.ui.messages = [purgeNotice] ∧
    (handle_input a now llm saveOk).app.state.mood = a.state.mood ∧
    (handle_input a now llm saveOk).app.state.name = a.state.name ∧
    (handle_input a now llm saveOk).app.state.last_interaction = a.state.last_interaction ∧
    (handle_input a now llm saveOk).backendCalled = false ∧
    (handle_input a now llm saveOk).saveAttempted = true := by
  unfold handle_input
  rw [h]
  rw [if_neg (by decide), if_neg (by decide)]
  dsimp only
  rw [if_pos (by decide), if_neg (by decide), if_neg (by decide), if_pos (by decide)]
  cases saveOk <;>
    refine ⟨rfl, ?_, rfl, rfl, rfl, rfl, rfl⟩ <;>
      simp [add_message, scroll_to_bottom, MAX_MESSAGES]

/-- The C2 scenario run (mood `0.5`, backend failure, treat input) ends with
mood `0.8`: the `+0.1` exchange boost lands before the fallback `+0.2`. -/
theorem treatRunMood : (handle_input treatApp 0 none true).app.state.mood = 4/5 := by
  unfold handle_input
  rw [if_neg (by decide), if_neg (by decide)]
  dsimp only
  rw [if_neg (by decide)]
  unfold chatTurn
  dsimp only
  unfold fallbackRespond
  rw [if_pos (by decide)]
  dsimp only
  norm_num [treatApp, sampleApp, boostMood, min_def]

/-- The C2 scenario run records the treat exchange with the fixed treat
phrase as the reply. -/
theorem treatRunHistory :
    (handle_input treatApp 0 none true).app.state.chat_history
      = [("I brought you a treat", treatReply)] := by
  unfold handle_input
  rw [if_neg (by decide), if_neg (by decide)]
  dsimp only
  rw [if_neg (by decide)]
  unfold chatTurn
  dsimp only
  unfold fallbackRespond
  rw [if_pos (by decide)]
  dsimp only
  simp [treatApp, sampleApp]

/-! ## Claim theorems -/

/-- C1: starting from any app state whose mood lies in `[0.1, 1.0]`, every
sequence of mood-changing operations — per-tick decay (`App::update`) and
input-handling turns (`App::handle_input`, which applies the `+0.1` exchange
boost and the fallback `+0.2`/`+0.15` deltas) — leaves the mood in
`[0.1, 1.0]`. -/
theorem mood_invariant (a : App) (ops : List SessionOp)
    (h1 : 1/10 ≤ a.state.mood) (h2 : a.state.mood ≤ 1) :
    1/10 ≤ (ops.foldl applySessionOp a).state.mood ∧
      (ops.foldl applySessionOp a).state.mood ≤ 1 := by
  induction ops generalizing a with
  | nil => exact ⟨h1, h2⟩
  | cons op rest ih =>
    rw [List.foldl_cons]
    cases op with
    | tick now =>
      have hd := decayMood_bounds a.state.mood (hoursSince a.state.last_interaction now)
      exact ih (update a now) hd.1 hd.2
    | turn now llm saveOk =>
      have hh := handle_input_mood_bounds a now llm saveOk h1 h2
      exact ih _ hh.1 hh.2

/-- Witness for C1 at a concrete state and operation sequence. -/
theorem mood_invariant_witness :
    (1/10 ≤ sampleApp.state.mood ∧ sampleApp.state.mood ≤ 1) ∧
    (1/10 ≤ ([SessionOp.tick 3600, SessionOp.turn 7200 none true].foldl
        applySessionOp sampleApp).state.mood ∧
      ([SessionOp.tick 3600, SessionOp.turn 7200 none true].foldl
        applySessionOp sampleApp).state.mood ≤ 1) :=
  ⟨⟨by norm_num [sampleApp], by norm_num [sampleApp]⟩,
   mood_invariant sampleApp [SessionOp.tick 3600, SessionOp.turn 7200 none true]
     (by norm_num [sampleApp]) (by norm_num [sampleApp])⟩

/-- C2 counterexample: in the exact scenario of the claim (mood `0.5`,
backend failure, input `"I brought you a treat"`), the mood after
`handle_input` is not `min(0.5 + 0.2, 1.0) = 0.7`. -/
theorem treat_scenario_not_point_seven :
    (handle_input treatApp 0 none true).app.state.mood ≠ 7/10 := by
  rw [treatRunMood]
  norm_num

/-- C2 amended: in that scenario the mood becomes
`min(min(0.5 + 0.1, 1.0) + 0.2, 1.0) = 0.8` — the unconditional `+0.1`
exchange boost is applied before the fallback `+0.2` — and the recorded
reply is the fixed treat phrase, which contains `"treat"`. -/
theorem treat_scenario_amended :
    (handle_input treatApp 0 none true).app.state.mood = 4/5 ∧
    (handle_input treatApp 0 none true).app.state.chat_history
      = [("I brought you a treat", treatReply)] ∧
    containsSub treatReply "treat" = true :=
  ⟨treatRunMood, treatRunHistory, by decide⟩

/-- C3: the claim says repeated `App::update` calls at the same instant must
not compound the decay. The code violates this: with mood `1.0` and the last
interaction one hour ago, one update yields `0.9` but a second update at the
very same `now` yields `0.8` — each call subtracts the full
`hours_since * 0.1` again because `last_interaction` is never advanced by
`update`. -/
theorem update_compounds_at_same_instant :
    (update sampleApp 3600).state.mood = 9/10 ∧
    (update (update sampleApp 3600) 3600).state.mood = 8/10 := by
  have h1 : hoursSince (0 : Int) 3600 = 1 := by decide
  constructor
  · show decayMood sampleApp.state.mood (hoursSince sampleApp.state.last_interaction 3600)
        = 9/10
    norm_num [sampleApp, h1, decayMood, min_def, max_def]
  · show decayMood (update sampleApp 3600).state.mood
        (hoursSince (update sampleApp 3600).state.last_interaction 3600) = 8/10
    have h2 : (update sampleApp 3600).state.mood = 9/10 := by
      show decayMood sampleApp.state.mood (hoursSince sampleApp.state.last_interaction 3600)
          = 9/10
      norm_num [sampleApp, h1, decayMood, min_def, max_def]
    have h3 : (update sampleApp 3600).state.last_interaction = 0 := by
      show sampleApp.state.last_interaction = 0
      norm_num [sampleApp]
    rw [h2, h3]
    norm_num [h1, decayMood, min_def, max_def]

/-- C4 counterexample: with a plain chat input pending and the save failing,
`handle_input` returns the error (`.failed`), and the session loop's `?`
does not continue — the persistence failure is not recovered within the
turn. -/
theorem save_failure_halts_loop :
    (handle_input helloApp 0 none false).outcome = .failed ∧
    loopContinues (handle_input helloApp 0 none false).outcome = false := by
  have h : (handle_input helloApp 0 none false).outcome = .failed := by
    unfold handle_input
    rw [if_neg (by decide), if_neg (by decide)]
    dsimp only
    rw [if_neg (by decide)]
    rw [chatTurn_outcome]
    decide
  exact ⟨h, by rw [h]; rfl⟩

/-- C4 amended: whenever a `handle_input` turn attempts a save and the save
fails, the turn returns `Err` (outcome `.failed`), and `main`'s
`app.handle_input().await?` then terminates the event loop — persistence
failures halt the session loop rather than being recovered within the
turn. -/
theorem save_failure_escapes_turn (a : App) (now : Int) (llm : Option String)
    (h : (handle_input a now llm false).saveAttempted = true) :
    (handle_input a now llm false).outcome = .failed ∧
    loopContinues (handle_input a now llm false).outcome = false := by
  have hout : (handle_input a now llm false).outcome = .failed := by
    unfold handle_input at h ⊢
    split_ifs at h ⊢ <;>
      first
        | rfl
        | assumption
  exact ⟨hout, by rw [hout]; rfl⟩

/-- Witness for C4's amended theorem at a concrete failing-save chat turn. -/
theorem save_failure_escapes_turn_witness :
    (handle_input helloApp 1 none false).saveAttempted = true ∧
    ((handle_input helloApp 1 none false).outcome = .failed ∧
      loopContinues (handle_input helloApp 1 none false).outcome = false) := by
  have h : (handle_input helloApp 1 none false).saveAttempted = true := by
    unfold handle_input
    rw [if_neg (by decide), if_neg (by decide)]
    dsimp only
    rw [if_neg (by decide)]
    rw [chatTurn_saveAttempted]
  exact ⟨h, save_failure_escapes_turn helloApp 1 none h⟩

/-- C5 counterexample: `load_shell_history` (default limit 50) can leave six
entries in `recent_commands`; the `"$ls"` input is then appended to that
same list, and after the turn the list still has six entries — the
`$`-capture list is neither independent of the shell-history list nor capped
at 5. -/
theorem dollar_capture_exceeds_five :
    (load_shell_history 50 historyLines []).length = 6 ∧
    (handle_input preloadedApp 0 none true).app.recent_commands.length = 6 ∧
    ¬ ((handle_input preloadedApp 0 none true).app.recent_commands.length ≤ 5) := by
  have hrc := handle_input_dollar_recent preloadedApp 0 none true (by decide)
  refine ⟨by decide, ?_, ?_⟩ <;> rw [hrc] <;> decide

/-- C5 amended: an input beginning with `'$'` has the marker stripped and
the remainder trimmed and appended — but to the same `recent_commands` list
that `load_shell_history` populates (capped at `command_history_limit`,
default 50, during load). The `$`-append evicts at most one oldest entry
once the length exceeds 5, so the post-turn length is bounded by
`max (previous length) 5`; it stays within 5 only when the list already had
at most 5 entries. -/
theorem dollar_capture_shared_list (a : App) (now : Int) (llm : Option String)
    (saveOk : Bool) (h : headChar a.ui.input = some '$') :
    (handle_input a now llm saveOk).app.recent_commands
        = captureDollar a.recent_commands a.ui.input ∧
    (handle_input a now llm saveOk).app.recent_commands.length
        ≤ max a.recent_commands.length 5 := by
  refine ⟨handle_input_dollar_recent a now llm saveOk h, ?_⟩
  rw [handle_input_dollar_recent a now llm saveOk h]
  unfold captureDollar
  rw [if_pos h]
  dsimp only
  split_ifs with hl
  · simp only [List.length_drop, List.length_append, List.length_singleton]
    calc a.recent_commands.length + 1 - 1 = a.recent_commands.length := by omega
    _ ≤ max a.recent_commands.length 5 := le_max_left _ _
  · simp only [List.length_append, List.length_singleton] at hl ⊢
    exact le_trans (by omega) (le_max_right a.recent_commands.length 5)

/-- Witness for C5's amended theorem at the preloaded concrete state. -/
theorem dollar_capture_shared_list_witness :
    headChar preloadedApp.ui.input = some '$' ∧
    ((handle_input preloadedApp 2 none true).app.recent_commands
        = captureDollar preloadedApp.recent_commands preloadedApp.ui.input ∧
      (handle_input preloadedApp 2 none true).app.recent_commands.length
        ≤ max preloadedApp.recent_commands.length 5) :=
  ⟨by decide, dollar_capture_shared_list preloadedApp 2 none true (by decide)⟩

/-- C6 counterexample: `/purge` does not leave the display message buffer
empty — after the turn the buffer holds exactly the purge notice. -/
theorem purge_buffer_not_empty :
    (handle_input purgeApp 0 none true).app.ui.messages = [purgeNotice] ∧
    (handle_input purgeApp 0 none true).app.ui.messages ≠ [] := by
  have h := handle_input_purge purgeApp 0 none true rfl
  refine ⟨h.2.1, ?_⟩
  rw [h.2.1]
  simp

/-- C6 amended: for every state, processing `/purge` empties `chat_history`,
clears the display buffer and then appends the single purge notice (so the
buffer ends holding exactly that one message), attempts the save, performs
no backend call, and leaves mood, name and `last_interaction` unchanged. -/
theorem purge_spec (a : App) (now : Int) (llm : Option String) (saveOk : Bool)
    (h : a.ui.input = "/purge") :
    (handle_input a now llm saveOk).app.state.chat_history = [] ∧
    (handle_input a now llm saveOk).app.ui.messages = [purgeNotice] ∧
    (handle_input a now llm saveOk).app.state.mood = a.state.mood ∧
    (handle_input a now llm saveOk).app.state.name = a.state.name ∧
    (handle_input a now llm saveOk).app.state.last_interaction = a.state.last_interaction ∧
    (handle_input a now llm saveOk).backendCalled = false ∧
    (handle_input a now llm saveOk).saveAttempted = true :=
  handle_input_purge a now llm saveOk h

/-- Witness for C6's amended theorem at a concrete state with history. -/
theorem purge_spec_witness :
    purgeApp.ui.input = "/purge" ∧
    ((handle_input purgeApp 3 none true).app.state.chat_history = [] ∧
      (handle_input purgeApp 3 none true).app.ui.messages = [purgeNotice] ∧
      (handle_input purgeApp 3 none true).app.state.mood = purgeApp.state.mood ∧
      (handle_input purgeApp 3 none true).app.state.name = purgeApp.state.name ∧
      (handle_input purgeApp 3 none true).app.state.last_interaction
        = purgeApp.state.last_interaction ∧
      (handle_input purgeApp 3 none true).backendCalled = false ∧
      (handle_input purgeApp 3 none true).saveAttempted = true) :=
  ⟨rfl, purge_spec purgeApp 3 none true rfl⟩

/-- C7: a buffer of at most 100 messages stays at most 100 after
`add_message`; at exactly 100 the oldest entry is evicted, the rest keep
their order, and the new message lands at the end. -/
theorem add_message_bounded (ui : AppUI) (m : String) (h : ui.messages.length ≤ 100) :
    (add_message ui m).messages.length ≤ 100 ∧
    (ui.messages.length = 100 →
      (add_message ui m).messages = ui.messages.drop 1 ++ [m]) := by
  unfold add_message scroll_to_bottom MAX_MESSAGES
  dsimp only
  constructor
  · split_ifs with hc
    · simp only [List.length_append, List.length_drop, List.length_singleton]
      omega
    · simp only [List.length_append, List.length_singleton]
      omega
  · intro h100
    rw [if_pos (by omega)]

/-- Witness for C7 at a buffer at capacity. -/
theorem add_message_bounded_witness :
    fullUI.messages.length ≤ 100 ∧
    ((add_message fullUI "new").messages.length ≤ 100 ∧
      (fullUI.messages.length = 100 →
        (add_message fullUI "new").messages = fullUI.messages.drop 1 ++ ["new"])) :=
  ⟨by simp [fullUI], add_message_bounded fullUI "new" (by simp [fullUI])⟩

/-- C8: an input starting with `'/'` whose trimmed form is none of the five
recognized commands falls through unmodified to the chat path: the turn is
exactly a `chatTurn` on the input (after the `You:` echo), it returns `Ok`,
the backend attempt is made, `last_interaction` is stamped, and the exchange
is recorded in `chat_history`. -/
theorem unknown_slash_falls_through (a : App) (now : Int) (llm : Option String)
    (h1 : headChar a.ui.input = some '/')
    (h2 : rustTrim a.ui.input ≠ "/stats") (h3 : rustTrim a.ui.input ≠ "/clear")
    (h4 : rustTrim a.ui.input ≠ "/purge") (h5 : rustTrim a.ui.input ≠ "/help")
    (h6 : rustTrim a.ui.input ≠ "/exit") :
    handle_input a now llm true
        = chatTurn { a with ui := add_message a.ui ("You: " ++ a.ui.input) }
            a.ui.input now llm true ∧
    (handle_input a now llm true).outcome = .ok ∧
    (handle_input a now llm true).backendCalled = true ∧
    (handle_input a now llm true).app.state.last_interaction = now ∧
    ∃ response, (handle_input a now llm true).app.state.chat_history
        = a.state.chat_history ++ [(a.ui.input, response)] := by
  have hne : ¬ (a.ui.input = "") := by
    intro he
    rw [he] at h1
    exact absurd h1 (by decide)
  have hd : ¬ (headChar a.ui.input = some '$') := by
    rw [h1]
    decide
  have hmain : handle_input a now llm true
      = chatTurn { a with ui := add_message a.ui ("You: " ++ a.ui.input) }
          a.ui.input now llm true := by
    unfold handle_input
    rw [if_neg hne, if_neg h6]
    dsimp only
    rw [if_pos h1, if_neg h2, if_neg h3, if_neg h4, if_neg h5, if_neg h6,
      captureDollar_not_dollar _ _ hd]
  refine ⟨hmain, ?_, ?_, ?_, ?_⟩
  · rw [hmain, chatTurn_outcome]
    decide
  · rw [hmain, chatTurn_backendCalled]
  · rw [hmain, chatTurn_last_interaction]
  · rw [hmain]
    exact chatTurn_chat_history _ _ _ _ _

/-- Witness for C8 at the `"/bogus"` input of the spec's scenario. -/
theorem unknown_slash_falls_through_witness :
    (headChar bogusApp.ui.input = some '/' ∧
      rustTrim bogusApp.ui.input ≠ "/stats" ∧ rustTrim bogusApp.ui.input ≠ "/clear" ∧
      rustTrim bogusApp.ui.input ≠ "/purge" ∧ rustTrim bogusApp.ui.input ≠ "/help" ∧
      rustTrim bogusApp.ui.input ≠ "/exit") ∧
    (handle_input bogusApp 4 (some "hi") true
        = chatTurn { bogusApp with ui := add_message bogusApp.ui ("You: " ++ bogusApp.ui.input) }
            bogusApp.ui.input 4 (some "hi") true ∧
      (handle_input bogusApp 4 (some "hi") true).outcome = .ok ∧
      (handle_input bogusApp 4 (some "hi") true).backendCalled = true ∧
      (handle_input bogusApp 4 (some "hi") true).app.state.last_interaction = 4 ∧
      ∃ response, (handle_input bogusApp 4 (some "hi") true).app.state.chat_history
          = bogusApp.state.chat_history ++ [(bogusApp.ui.input, response)]) :=
  ⟨⟨by decide, by decide, by decide, by decide, by decide, by decide⟩,
   unknown_slash_falls_through bogusApp 4 (some "hi") (by decide) (by decide) (by decide)
     (by decide) (by decide) (by decide)⟩

/-- C9: with an empty pending input, `handle_input` is a complete no-op that
returns `Ok`: the app (pet state, display buffer, recent commands, backend
context) is unchanged and neither the backend nor the save is touched. -/
theorem empty_input_noop (a : App) (now : Int) (llm : Option String) (saveOk : Bool)
    (h : a.ui.input = "") :
    handle_input a now llm saveOk =
      { app := a, outcome := .ok, backendCalled := false, saveAttempted := false } := by
  unfold handle_input
  rw [if_pos h]

/-- Witness for C9 at a concrete empty-input state. -/
theorem empty_input_noop_witness :
    sampleApp.ui.input = "" ∧
    handle_input sampleApp 5 (some "hi") true =
      { app := sampleApp, outcome := .ok, backendCalled := false, saveAttempted := false } :=
  ⟨rfl, empty_input_noop sampleApp 5 (some "hi") true rfl⟩

/-- C10: decay is quantized to whole hours — when strictly less than one
hour has elapsed since `last_interaction` (and mood is in `[0.1, 1.0]`),
the tick update leaves the mood exactly unchanged. -/
theorem update_no_decay_within_hour (a : App) (now : Int)
    (h0 : 0 ≤ now - a.state.last_interaction)
    (h1 : now - a.state.last_interaction < 3600)
    (hm1 : 1/10 ≤ a.state.mood) (hm2 : a.state.mood ≤ 1) :
    (update a now).state.mood = a.state.mood := by
  have hz : hoursSince a.state.last_interaction now = 0 := Int.tdiv_eq_zero_of_lt h0 h1
  show decayMood a.state.mood (hoursSince a.state.last_interaction now) = a.state.mood
  rw [hz]
  unfold decayMood
  rw [show ((0 : Int) : Rat) * (1/10) = 0 by norm_num, sub_zero,
    max_eq_left hm1, min_eq_left hm2]

/-- Witness for C10 half an hour after the last interaction. -/
theorem update_no_decay_within_hour_witness :
    (0 ≤ (1800 : Int) - sampleApp.state.last_interaction ∧
      (1800 : Int) - sampleApp.state.last_interaction < 3600 ∧
      1/10 ≤ sampleApp.state.mood ∧ sampleApp.state.mood ≤ 1) ∧
    (update sampleApp 1800).state.mood = sampleApp.state.mood :=
  ⟨⟨by norm_num [sampleApp], by norm_num [sampleApp], by norm_num [sampleApp],
      by norm_num [sampleApp]⟩,
   update_no_decay_within_hour sampleApp 1800 (by norm_num [sampleApp])
     (by norm_num [sampleApp]) (by norm_num [sampleApp]) (by norm_num [sampleApp])⟩

end Pawshell
